import Mathlib

set_option linter.unusedVariables false

/-!
Verification development for the past-papers bulk-download service.

The definitions below are a shallow embedding of the Python sources:
`app/services/download_service.py` (job store, file fetcher, download
orchestrator, archiver), `app/services/cache_service.py` (metadata cache)
and `app/api/v1/endpoints/downloads.py` (request handlers).

Modelling conventions:
* Filesystem paths are lists of path components (`PathC`); the filesystem is
  a finite map from paths to file contents, represented as an association
  list (`FS`).
* Network and disk effects of one file fetch are summarised by a
  `FetchOutcome` describing which branch of `download_file_async` runs.
* `datetime.now()` instants are `Nat`.
* Python float percentages are modelled as exact rationals `ℚ`.
* Exceptions that propagate out of a Python function are modelled with
  `Except`; exceptions that the function catches are folded into its result.
-/

namespace PastPapers

/-! ## Paths and the filesystem model -/

abbrev PathC := List String

abbrev FS := List (PathC × String)

def fsPaths (fs : FS) : List PathC := fs.map Prod.fst

/-- Writing a file: overwrite the entry when the path exists, append otherwise. -/
def fsWrite (fs : FS) (p : PathC) (c : String) : FS :=
  if fs.any (fun q => decide (q.1 = p)) then
    fs.map (fun q => if q.1 = p then (p, c) else q)
  else fs ++ [(p, c)]

/-- `leadsPath d p` is true when every component of `d` starts `p`
(directory `d` is an ancestor-or-self of path `p`). -/
def leadsPath : PathC → PathC → Bool
  | [], _ => true
  | _ :: _, [] => false
  | a :: as, b :: bs => decide (a = b) && leadsPath as bs

/-- A path strictly below directory `dir` (how `Path.rglob` enumerates files). -/
def dirContains (dir p : PathC) : Bool :=
  leadsPath dir p && decide (dir.length < p.length)

/-- `TEMP_DOWNLOAD_DIR` from `app/core/config.py`, as a single path component. -/
def tempRoot : String := "temp_downloads"

/-- `JOB_STORAGE_DIR = TEMP_DOWNLOAD_DIR / "jobs"`. -/
def jobStorageDir : PathC := [tempRoot, "jobs"]

/-- The durable per-job record `JOB_STORAGE_DIR / f"{job_id}.json"`. -/
def jobRecordPath (job_id : String) : PathC := jobStorageDir ++ [job_id ++ ".json"]

/-- The temporary file `job_file.with_suffix(".tmp")` used by `save_job_to_file`. -/
def jobTempPath (job_id : String) : PathC := jobStorageDir ++ [job_id ++ ".tmp"]

/-! ## String helpers mirroring the Python string operations -/

/-- `name.replace("/", "-").replace("\\", "-")` from the collection phase. -/
def sanitize (s : String) : String :=
  ⟨s.data.map (fun c => if c = '/' || c = '\\' then '-' else c)⟩

/-- `job_id[:8]`. -/
def strTake (s : String) (n : Nat) : String := ⟨s.data.take n⟩

def splitFirstAux : List Char → List Char → Option (String × String)
  | [], _ => none
  | c :: rest, acc =>
    if c = ':' then some (⟨acc.reverse⟩, ⟨rest⟩) else splitFirstAux rest (c :: acc)

/-- `season_key.split(":", 1)` unpacked into two parts; `none` models the
`ValueError` raised when the delimiter is missing. -/
def splitFirstColon (s : String) : Option (String × String) := splitFirstAux s.data []

/-! ## File fetcher: `download_file_async` -/

/-- One fetch's interaction with the network and the disk, naming the branch
of `download_file_async` that runs:
* `ok c`: HTTP 200 and the whole body of content `c` streamed to disk;
* `non200 code`: a non-200 response, nothing written;
* `timeoutErr`: `asyncio.TimeoutError`, nothing written;
* `exc msg`: some other exception before any chunk is written;
* `excMidStream chunks msg`: HTTP 200 but an exception after the chunks
  `chunks` were already written to the destination file. -/
inductive FetchOutcome where
  | ok (content : String)
  | non200 (code : Nat)
  | timeoutErr
  | exc (msg : String)
  | excMidStream (chunks : String) (msg : String)
deriving DecidableEq, Repr

/-- `download_file_async(session, url, filepath, semaphore)`: returns the
`(success, error_message)` pair and the filesystem after the call.  Every
branch returns instead of raising. -/
def download_file_async (filepath : PathC) (o : FetchOutcome) (fs : FS) :
    (Bool × Option String) × FS :=
  match o with
  | .ok c => ((true, none), fsWrite fs filepath c)
  | .non200 code => ((false, some ("HTTP " ++ toString code)), fs)
  | .timeoutErr => ((false, some "Timeout"), fs)
  | .exc msg => ((false, some msg), fs)
  | .excMidStream chunks msg => ((false, some msg), fsWrite fs filepath chunks)

/-- The `(success, error)` pair of a fetch, which depends only on the outcome. -/
def fetchResult (o : FetchOutcome) : Bool × Option String :=
  match o with
  | .ok _ => (true, none)
  | .non200 code => (false, some ("HTTP " ++ toString code))
  | .timeoutErr => (false, some "Timeout")
  | .exc msg => (false, some msg)
  | .excMidStream _ msg => (false, some msg)

/-- Whether `download_file_async` leaves a file at the destination. -/
def writesDisk : FetchOutcome → Bool
  | .ok _ => true
  | .excMidStream _ _ => true
  | _ => false

/-! ## The job record -/

structure DirectEntry where
  url : String
  filename : String
  subject : String
  subject_code : String
  season : String
deriving DecidableEq, Repr

/-- The job dictionary created by `create_download_job`, one field per key.
The keys `started_at`, `completed_at` and `cleaned` are added to the
dictionary later in the job's life; they are modelled as fields that start
at their "key absent" values. -/
structure Job where
  job_id : String
  qualification : String
  subjects : List String
  seasons : List String
  download_method : String
  status : String
  current_file : Nat
  total_files : Nat
  percentage : ℚ
  message : String
  downloaded_files : List String
  failed_files : List (String × Option String)
  errors : List String
  created_at : Nat
  zip_path : Option String := none
  zip_filename : Option String := none
  direct_download_urls : List DirectEntry := []
  started_at : Option Nat := none
  completed_at : Option Nat := none
  cleaned : Bool := false
deriving DecidableEq, Repr

/-- The initial record written by `create_download_job` (body of `job_data`). -/
def create_download_job_record (job_id qualification : String)
    (subjects seasons : List String) (download_method : String) (now : Nat) : Job :=
  { job_id := job_id
    qualification := qualification
    subjects := subjects
    seasons := seasons
    download_method := download_method
    status := "pending"
    current_file := 0
    total_files := 0
    percentage := 0
    message := "Initializing download..."
    downloaded_files := []
    failed_files := []
    errors := []
    created_at := now }

/-! ## Job store operations and their disk effects -/

/-- One filesystem side effect of the job store. -/
inductive FsOp where
  | mkdirAll (path : PathC)
  | writeFile (path : PathC) (content : String)
  | rename (src dst : PathC)
deriving DecidableEq, Repr

/-- `create_download_job`: allocates the record, stores it in the in-memory
table `download_jobs`, and writes the serialized record (`payload`) to the
per-job file.  The returned operation list is the sequence of disk effects
the function performs, in order: note the record is written directly to its
final path. -/
def create_download_job (store : List (String × Job)) (job_id qualification : String)
    (subjects seasons : List String) (download_method : String) (now : Nat)
    (payload : String) : (List (String × Job)) × Job × List FsOp :=
  let job := create_download_job_record job_id qualification subjects seasons
    download_method now
  (store ++ [(job_id, job)], job,
   [FsOp.mkdirAll jobStorageDir, FsOp.writeFile (jobRecordPath job_id) payload])

/-- Disk effects of `save_job_to_file`: write the serialized record to the
`.tmp` sibling, then rename it over the final path. -/
def save_job_to_file_ops (job_id : String) (payload : String) : List FsOp :=
  [FsOp.mkdirAll jobStorageDir,
   FsOp.writeFile (jobTempPath job_id) payload,
   FsOp.rename (jobTempPath job_id) (jobRecordPath job_id)]

/-- Some operation writes file content directly at `target`. -/
def writesDirectly (ops : List FsOp) (target : PathC) : Bool :=
  ops.any (fun op =>
    match op with
    | FsOp.writeFile p _ => decide (p = target)
    | _ => false)

/-- Some operation renames another path onto `target`. -/
def renamesInto (ops : List FsOp) (target : PathC) : Bool :=
  ops.any (fun op =>
    match op with
    | FsOp.rename _ d => decide (d = target)
    | _ => false)

/-- The write sequence replaces `target` atomically: the content never lands
at `target` by a direct write, only by a rename of a fully-written file. -/
def atomicReplace (ops : List FsOp) (target : PathC) : Bool :=
  !writesDirectly ops target && renamesInto ops target

/-- `cleanup_job` removes the working directory and marks the record. -/
def cleanup_job (j : Job) : Job := { j with cleaned := true }

/-! ## Metadata cache: `app/services/cache_service.py`

Payloads are opaque to the cache; they are modelled as `List String`
(seasons/subjects/qualifications data) and `Nat` (file counts).  Expiry
instants are `Nat`; `datetime.now() < expires_at` is `now < expires_at`. -/

def alistGet {α : Type} (m : List (String × α)) (k : String) : Option α :=
  match m.find? (fun p => decide (p.1 = k)) with
  | some p => some p.2
  | none => none

def alistErase {α : Type} (m : List (String × α)) (k : String) : List (String × α) :=
  m.filter (fun p => decide (p.1 ≠ k))

/-- The module-level cache dictionaries of `cache_service.py`. -/
structure CacheState where
  seasons_cache : List (String × (List String × Nat))
  file_count_cache : List (String × (Nat × Nat))
  subjects_cache : List (String × (List String × Nat))
  qualifications_cache : Option (List String × Nat)
deriving DecidableEq, Repr

/-- `get_cache_key`. -/
def get_cache_key (qualification subject_code : String) : String :=
  qualification ++ ":" ++ subject_code

/-- `get_seasons_cached`: returns the payload when fresh; deletes the entry
when it is present but expired. -/
def get_seasons_cached (now : Nat) (st : CacheState)
    (qualification subject_code : String) : Option (List String) × CacheState :=
  let key := get_cache_key qualification subject_code
  match alistGet st.seasons_cache key with
  | some entry =>
    if now < entry.2 then (some entry.1, st)
    else (none, { st with seasons_cache := alistErase st.seasons_cache key })
  | none => (none, st)

/-- `get_file_count_cached`. -/
def get_file_count_cached (now : Nat) (st : CacheState) (season_url : String) :
    Option Nat × CacheState :=
  match alistGet st.file_count_cache season_url with
  | some entry =>
    if now < entry.2 then (some entry.1, st)
    else (none, { st with file_count_cache := alistErase st.file_count_cache season_url })
  | none => (none, st)

/-- `get_subjects_cached`. -/
def get_subjects_cached (now : Nat) (st : CacheState) (qualification_id : String) :
    Option (List String) × CacheState :=
  match alistGet st.subjects_cache qualification_id with
  | some entry =>
    if now < entry.2 then (some entry.1, st)
    else (none, { st with subjects_cache := alistErase st.subjects_cache qualification_id })
  | none => (none, st)

/-- `get_qualifications_cached`: returns the payload when fresh, `None`
otherwise — the expired globals are left in place (they are only reset by
`clear_expired_cache`). -/
def get_qualifications_cached (now : Nat) (st : CacheState) :
    Option (List String) × CacheState :=
  match st.qualifications_cache with
  | some entry => if now < entry.2 then (some entry.1, st) else (none, st)
  | none => (none, st)

/-! ## External collaborators of the orchestrator

`subject_service.get_subject_by_code`, `season_service.get_season_by_id` and
`web_scraper.get_exams` are out-of-scope collaborators; the orchestrator is
parametrised over them.  `get_exams` may raise, modelled with `Except`. -/

structure SubjectInfo where
  name : String
deriving DecidableEq, Repr

structure SeasonInfo where
  name : String
  url : String
deriving DecidableEq, Repr

structure ExamLink where
  name : String
  url : String
deriving DecidableEq, Repr

structure Env where
  get_subject_by_code : String → String → Option SubjectInfo
  get_season_by_id : String → String → String → Option SeasonInfo
  get_exams : String → Except String (List ExamLink)

/-! ## Collection phase -/

/-- One entry of `all_files` in `download_bulk_files`. -/
structure FileInfo where
  url : String
  filepath : PathC
  subject_code : String
  season_id : String
  filename : String
deriving DecidableEq, Repr

/-- Insertion into `season_map` (`{subjectCode: [seasonIds]}` built with
appends, insertion ordered). -/
def insertSeason (m : List (String × List String)) (code sid : String) :
    List (String × List String) :=
  if m.any (fun p => decide (p.1 = code)) then
    m.map (fun p => if p.1 = code then (p.1, p.2 ++ [sid]) else p)
  else m ++ [(code, [sid])]

/-- The `season_map` building loop, one `season_key` at a time.  A key
without the `:` delimiter makes the two-name unpacking raise `ValueError`,
modelled as `.error`. -/
def buildSeasonMapFrom : List (String × List String) → List String →
    Except String (List (String × List String))
  | acc, [] => .ok acc
  | acc, key :: rest =>
    match splitFirstColon key with
    | none => .error ("not enough values to unpack while parsing " ++ key)
    | some parts => buildSeasonMapFrom (insertSeason acc parts.1 parts.2) rest

/-- The `season_map` built by `download_bulk_files` and
`download_direct_files` from the `"subjectCode:seasonId"` keys. -/
def buildSeasonMap (seasons : List String) : Except String (List (String × List String)) :=
  buildSeasonMapFrom [] seasons

/-- `season_map.get(subject_code, [])`. -/
def seasonsFor (smap : List (String × List String)) (subject_code : String) :
    List String :=
  (alistGet smap subject_code).getD []

/-- Shared shape of the nested collection loops: fold a per-item collector
over a list, appending both the collected entries and the error strings. -/
def collectFold {α β : Type} (f : α → List β × List String) :
    List α → List β × List String → List β × List String
  | [], acc => acc
  | a :: rest, acc => collectFold f rest (acc.1 ++ (f a).1, acc.2 ++ (f a).2)

/-- Inner loop body of the collection phase of `download_bulk_files`: one
`season_id` of one subject.  A missing season contributes nothing; a scraper
exception is converted to an error string. -/
def collectSeason (env : Env) (qualification subject_code subject_name job_id : String)
    (season_id : String) : List FileInfo × List String :=
  match env.get_season_by_id qualification subject_code season_id with
  | none => ([], [])
  | some season =>
    match env.get_exams season.url with
    | .error e =>
      ([], ["Error getting files for " ++ subject_code ++ "/" ++ season_id ++ ": " ++ e])
    | .ok exams =>
      (exams.map (fun exam =>
        { url := exam.url
          filepath := [tempRoot, job_id, sanitize subject_name,
                       sanitize season.name, exam.name]
          subject_code := subject_code
          season_id := season_id
          filename := exam.name }), [])

/-- Outer loop body: one subject code.  An unknown subject is skipped. -/
def collectSubject (env : Env) (qualification job_id : String)
    (smap : List (String × List String)) (subject_code : String) :
    List FileInfo × List String :=
  match env.get_subject_by_code qualification subject_code with
  | none => ([], [])
  | some subject =>
    collectFold (collectSeason env qualification subject_code subject.name job_id)
      (seasonsFor smap subject_code) ([], [])

/-- The whole collection phase: `all_files` and the scraper error strings. -/
def collectAll (env : Env) (qualification job_id : String) (subjects : List String)
    (smap : List (String × List String)) : List FileInfo × List String :=
  collectFold (collectSubject env qualification job_id smap) subjects ([], [])

/-! ## Download orchestrator: `download_bulk_files` -/

/-- Mutable state of the `as_completed` loop: the job record, the filesystem
and the `failed_count` local counter (`downloaded_count` always equals
`job.current_file`). -/
structure LoopState where
  job : Job
  fs : FS
  failed_count : Nat
deriving DecidableEq, Repr

/-- Processing of one completed download task. -/
def downloadStep (total : Nat) (fetch : FileInfo → FetchOutcome) (st : LoopState)
    (e : FileInfo) : LoopState :=
  let r := download_file_async e.filepath (fetch e) st.fs
  let cnt := st.job.current_file + 1
  let j1 := { st.job with current_file := cnt }
  let j2 :=
    if r.1.1 then { j1 with downloaded_files := j1.downloaded_files ++ [e.filename] }
    else { j1 with failed_files := j1.failed_files ++ [(e.filename, r.1.2)] }
  let j3 := if 0 < total then
      { j2 with percentage := ((cnt : ℚ) / (total : ℚ)) * 100 }
    else j2
  { job := j3
    fs := r.2
    failed_count := if r.1.1 then st.failed_count else st.failed_count + 1 }

/-- The `as_completed` loop over the completion order, also returning the
job snapshot after each completion. -/
def runLoop (total : Nat) (fetch : FileInfo → FetchOutcome) :
    LoopState → List FileInfo → LoopState × List Job
  | st, [] => (st, [])
  | st, e :: rest =>
    let st' := downloadStep total fetch st e
    let p := runLoop total fetch st' rest
    (p.1, st'.job :: p.2)

/-- `create_zip_archive`: walks the files below `TEMP_DOWNLOAD_DIR/job_id`
and stores each with its path relative to that directory; returns the
archive filename and its entries. -/
def create_zip_archive (fs : FS) (job_id qualification : String) :
    String × List (PathC × String) :=
  (qualification ++ "_" ++ strTake job_id 8 ++ ".zip",
   fs.filterMap (fun q =>
     if dirContains [tempRoot, job_id] q.1 then some (q.1.drop 2, q.2) else none))

/-- Result of one orchestrator run: the final job record, the filesystem, the
archive name and entries, and the sequence of job snapshots taken at the
orchestrator's successive mutation points. -/
structure RunResult where
  job : Job
  fs : FS
  zip_name : String
  zip_entries : List (PathC × String)
  trace : List Job
  failed_count : Nat
deriving DecidableEq, Repr

/-- Job state after step 1 of `download_bulk_files` (mark `collecting_files`,
record the start time, zero the counters). -/
def collectingJob (job0 : Job) (now : Nat) : Job :=
  { job0 with
    status := "collecting_files"
    started_at := some now
    message := "Collecting file URLs from website..."
    current_file := 0
    total_files := 0 }

/-- Job state after the collection loop: scraper errors appended and the
total recorded. -/
def collectedJob (job0 : Job) (now : Nat) (errs : List String) (total : Nat) : Job :=
  { collectingJob job0 now with
    errors := (collectingJob job0 now).errors ++ errs
    total_files := total
    message := "Found " ++ toString total ++ " files. Starting downloads..." }

/-- The terminal state of the zero-files branch. -/
def failedNoFilesJob (job0 : Job) (now : Nat) (errs : List String) : Job :=
  { collectedJob job0 now errs 0 with
    status := "failed"
    message := "No files found to download." }

/-- Job state at the start of the download phase. -/
def downloadingJob (job0 : Job) (now : Nat) (errs : List String) (total : Nat) : Job :=
  { collectedJob job0 now errs total with
    status := "downloading"
    message := "Downloading " ++ toString total ++ " files..." }

/-- The `creating_zip` update: status, message and the reset to 95. -/
def creatingZipJob (j : Job) : Job :=
  { j with
    status := "creating_zip"
    message := "Creating ZIP archive..."
    percentage := 95 }

/-- The final `completed` update after the archiver ran. -/
def completedJobOf (j : Job) (now : Nat) (zname : String) (failed_count : Nat) : Job :=
  { j with
    status := "completed"
    completed_at := some now
    zip_path := some (tempRoot ++ "/" ++ zname)
    zip_filename := some zname
    percentage := 100
    message := "Download complete! " ++ toString j.current_file ++
      " files downloaded, " ++ toString failed_count ++ " failed." }

/-- `download_bulk_files`, with the external collaborators (`env`), the
per-file fetch behaviour (`fetch`) and the task-completion order (`order`)
as parameters.  The `.error` result models the exceptions that escape the
function (season-key unpacking). -/
def download_bulk_files (env : Env) (fetch : FileInfo → FetchOutcome)
    (order : List FileInfo) (qualification : String) (subjects seasons : List String)
    (job_id : String) (job0 : Job) (fs0 : FS) (now : Nat) :
    Except String RunResult :=
  match buildSeasonMap seasons with
  | .error e => .error e
  | .ok smap =>
    let collected := collectAll env qualification job_id subjects smap
    let total := collected.1.length
    if total = 0 then
      .ok { job := failedNoFilesJob job0 now collected.2
            fs := fs0
            zip_name := ""
            zip_entries := []
            trace := [collectingJob job0 now, failedNoFilesJob job0 now collected.2]
            failed_count := 0 }
    else
      let res := runLoop total fetch
        { job := downloadingJob job0 now collected.2 total, fs := fs0,
          failed_count := 0 } order
      let z := create_zip_archive res.1.fs job_id qualification
      .ok { job := completedJobOf (creatingZipJob res.1.job) now z.1 res.1.failed_count
            fs := res.1.fs
            zip_name := z.1
            zip_entries := z.2
            trace := [collectingJob job0 now, downloadingJob job0 now collected.2 total]
              ++ res.2 ++ [creatingZipJob res.1.job,
                completedJobOf (creatingZipJob res.1.job) now z.1 res.1.failed_count]
            failed_count := res.1.failed_count }

/-! ## Direct/link mode: `download_direct_files` -/

/-- Inner loop body of the direct-mode collection. -/
def collectSeasonDirect (env : Env) (qualification subject_code subject_name : String)
    (season_id : String) : List DirectEntry × List String :=
  match env.get_season_by_id qualification subject_code season_id with
  | none => ([], [])
  | some season =>
    match env.get_exams season.url with
    | .error e =>
      ([], ["Error getting files for " ++ subject_code ++ "/" ++ season_id ++ ": " ++ e])
    | .ok exams =>
      (exams.map (fun exam =>
        { url := exam.url
          filename := exam.name
          subject := subject_name
          subject_code := subject_code
          season := season.name }), [])

def collectSubjectDirect (env : Env) (qualification : String)
    (smap : List (String × List String)) (subject_code : String) :
    List DirectEntry × List String :=
  match env.get_subject_by_code qualification subject_code with
  | none => ([], [])
  | some subject =>
    collectFold (collectSeasonDirect env qualification subject_code subject.name)
      (seasonsFor smap subject_code) ([], [])

def collectAllDirect (env : Env) (qualification : String) (subjects : List String)
    (smap : List (String × List String)) : List DirectEntry × List String :=
  collectFold (collectSubjectDirect env qualification smap) subjects ([], [])

/-- `download_direct_files`: collects the URL list and sets status `ready` —
there is no zero-file check on this path.  Returns the final job and the
snapshots at the successive mutation points. -/
def download_direct_files (env : Env) (qualification : String)
    (subjects seasons : List String) (job_id : String) (job0 : Job) (now : Nat) :
    Except String (Job × List Job) :=
  let j1 := { job0 with status := "collecting_files", started_at := some now }
  match buildSeasonMap seasons with
  | .error e => .error e
  | .ok smap =>
    let j2 := { j1 with status := "collecting_files", message := "Collecting file URLs..." }
    let collected := collectAllDirect env qualification subjects smap
    let j3 := { j2 with
      errors := j2.errors ++ collected.2
      total_files := collected.1.length
      status := "ready"
      message := "Ready to download " ++ toString collected.1.length ++
        " files. Click 'Start Download' to begin."
      direct_download_urls := collected.1 }
    .ok (j3, [j1, j2, j3])

/-! ## Request handlers: `app/api/v1/endpoints/downloads.py` -/

structure BulkDownloadRequest where
  qualification : String
  subjects : List String
  seasons : List String
  download_method : String := "zip"
deriving DecidableEq, Repr

structure BulkDownloadResponse where
  job_id : String
  status : String
  total_files : Nat
  message : String
deriving DecidableEq, Repr

/-- Outcome of a request handler: a response body with its HTTP status, or
an `HTTPException` with its status code and detail string. -/
inductive ApiOutcome (α : Type) where
  | ok (statusCode : Nat) (body : α)
  | httpError (statusCode : Nat) (detail : String)
deriving DecidableEq, Repr

/-- `str(HTTPException(code, detail))` (starlette renders it as
`"{code}: {detail}"`). -/
def strOfHTTPException (code : Nat) (detail : String) : String :=
  toString code ++ ": " ++ detail

/-- A 4xx-class status code. -/
def is4xx (code : Nat) : Bool := decide (400 ≤ code) && decide (code < 500)

/-- `start_bulk_download`: the handler's own `try`/`except Exception` block
catches the `HTTPException(400, ...)` it raises for an empty selection and
re-raises it as a 500 whose detail wraps `str(e)`.  No other validation of
the request (in particular none of the season-selector format) happens;
the accepted case returns 202 and schedules `download_bulk_files`. -/
def start_bulk_download (req : BulkDownloadRequest) (new_job_id : String) :
    ApiOutcome BulkDownloadResponse :=
  if req.subjects.isEmpty then
    ApiOutcome.httpError 500
      ("Error starting download: " ++ strOfHTTPException 400 "No subjects selected")
  else if req.seasons.isEmpty then
    ApiOutcome.httpError 500
      ("Error starting download: " ++ strOfHTTPException 400 "No seasons selected")
  else
    ApiOutcome.ok 202
      { job_id := new_job_id
        status := "initializing"
        total_files := 0
        message := "Starting download... Please wait." }

/-- `start_direct_downloads` (`POST /{job_id}/start-direct`): 404 when the
job is unknown; otherwise it sets the status to `downloading` with no check
of the job's current state. -/
def start_direct_downloads (job : Option Job) : ApiOutcome String × Option Job :=
  match job with
  | none => (ApiOutcome.httpError 404 "Job not found", none)
  | some j =>
    (ApiOutcome.ok 200 "Direct downloads started",
     some { j with status := "downloading", message := "Downloads started in browser..." })

/-! ## Lifecycle phase order -/

/-- Position of each status in the job lifecycle; both `completed` and
`failed` are terminal. -/
def phaseIdx (s : String) : Nat :=
  if s = "pending" then 0
  else if s = "initializing" then 0
  else if s = "collecting_files" then 1
  else if s = "ready" then 2
  else if s = "downloading" then 3
  else if s = "creating_zip" then 4
  else if s = "completed" then 5
  else if s = "failed" then 5
  else 0

/-- A status sequence never moves to an earlier phase. -/
def phasesMonotone : List String → Bool
  | [] => true
  | [_] => true
  | a :: b :: t => decide (phaseIdx a ≤ phaseIdx b) && phasesMonotone (b :: t)

/-- A rational sequence is non-decreasing step by step. -/
def nondecreasing : List ℚ → Bool
  | [] => true
  | [_] => true
  | a :: b :: t => decide (a ≤ b) && nondecreasing (b :: t)

/-! ## Concrete instances used to exercise the model -/

/-- A catalog with one subject (`9700`, "Biology"), one season (`s1`) and a
single exam file. -/
def sampleEnv : Env :=
  { get_subject_by_code := fun _ code =>
      if code = "9700" then some { name := "Biology" } else none
    get_season_by_id := fun _ _ sid =>
      if sid = "s1" then some { name := "2024-May-June", url := "season-url" } else none
    get_exams := fun _ => Except.ok [{ name := "p1.pdf", url := "http://host/p1.pdf" }] }

/-- A catalog in which no subject resolves, so collection discovers no file. -/
def emptyEnv : Env :=
  { get_subject_by_code := fun _ _ => none
    get_season_by_id := fun _ _ _ => none
    get_exams := fun _ => Except.ok [] }

def fetchAllOk : FileInfo → FetchOutcome := fun _ => FetchOutcome.ok "data"

def fetchAllMidStream : FileInfo → FetchOutcome :=
  fun _ => FetchOutcome.excMidStream "par" "Connection reset"

def sampleSeasonMap : List (String × List String) := [("9700", ["s1"])]

def sampleOrder : List FileInfo :=
  (collectAll sampleEnv "caie" "job-0001" ["9700"] sampleSeasonMap).1

def sampleJob0 : Job :=
  create_download_job_record "job-0001" "caie" ["9700"] ["9700:s1"] "zip" 3

def junkRun : RunResult :=
  { job := sampleJob0, fs := [], zip_name := "", zip_entries := [], trace := [],
    failed_count := 0 }

def runOf (x : Except String RunResult) : RunResult :=
  match x with
  | .ok r => r
  | .error _ => junkRun

/-- The archive-mode run over the one-file catalog with every fetch
succeeding. -/
def sampleRun : RunResult :=
  runOf (download_bulk_files sampleEnv fetchAllOk sampleOrder "caie" ["9700"]
    ["9700:s1"] "job-0001" sampleJob0 [] 3)

/-- The single collected file of `sampleOrder`, written out. -/
def sampleFileInfo : FileInfo :=
  { url := "http://host/p1.pdf"
    filepath := [tempRoot, "job-0001", "Biology", "2024-May-June", "p1.pdf"]
    subject_code := "9700"
    season_id := "s1"
    filename := "p1.pdf" }

/-- The archive-mode run over the one-file catalog where the single fetch
dies mid-stream after writing some chunks. -/
def midRun : RunResult :=
  runOf (download_bulk_files sampleEnv fetchAllMidStream sampleOrder "caie" ["9700"]
    ["9700:s1"] "job-0001" sampleJob0 [] 3)

/-- An archive-mode run in which collection discovers zero files. -/
def zeroBulkRun : RunResult :=
  runOf (download_bulk_files emptyEnv fetchAllOk [] "caie" ["9700"] ["9700:s1"]
    "job-0002" (create_download_job_record "job-0002" "caie" ["9700"] ["9700:s1"]
      "zip" 0) [] 0)

def directOf (x : Except String (Job × List Job)) : Job × List Job :=
  match x with
  | .ok p => p
  | .error _ => (sampleJob0, [])

/-- A direct-mode run in which collection discovers zero files. -/
def zeroDirectPair : Job × List Job :=
  directOf (download_direct_files emptyEnv "caie" ["9700"] ["9700:s1"] "job-0003"
    (create_download_job_record "job-0003" "caie" ["9700"] ["9700:s1"] "direct" 0) 0)

/-- A direct-mode run over the one-file catalog. -/
def sampleDirectPair : Job × List Job :=
  directOf (download_direct_files sampleEnv "caie" ["9700"] ["9700:s1"] "job-0001"
    sampleJob0 3)

/-- A job that has already reached the terminal `completed` state. -/
def completedJob : Job := { sampleJob0 with status := "completed" }

/-- A cache state whose four tables all hold an entry that expires at
instant 5. -/
def staleCache : CacheState :=
  { seasons_cache := [("caie:9700", (["s1"], 5))]
    file_count_cache := [("season-url", (3, 5))]
    subjects_cache := [("caie", (["9700"], 5))]
    qualifications_cache := some (["AS-A-Level"], 5) }

/-- A request with an empty subject selection. -/
def emptySubjectsReq : BulkDownloadRequest :=
  { qualification := "caie", subjects := [], seasons := ["9700:s1"] }

/-- A request whose season selector is missing the `:` delimiter. -/
def malformedSelectorReq : BulkDownloadRequest :=
  { qualification := "caie", subjects := ["9700"], seasons := ["malformed"] }

/-! ## Basic lemmas about the fetcher and the filesystem model -/

theorem fetchResult_eq (filepath : PathC) (o : FetchOutcome) (fs : FS) :
    (download_file_async filepath o fs).1 = fetchResult o := by
  cases o <;> rfl

theorem fsPaths_fsWrite (fs : FS) (p : PathC) (c : String) :
    fsPaths (fsWrite fs p c) = fsPaths fs ∨
      fsPaths (fsWrite fs p c) = fsPaths fs ++ [p] := by
  unfold fsWrite
  by_cases h : fs.any (fun q => decide (q.1 = p)) = true
  · left
    simp only [if_pos h, fsPaths, List.map_map]
    apply List.map_congr_left
    intro a ha
    by_cases hq : a.1 = p <;> simp [hq]
  · right
    simp [if_neg h, fsPaths]

theorem mem_fsPaths_fsWrite_self (fs : FS) (p : PathC) (c : String) :
    p ∈ fsPaths (fsWrite fs p c) := by
  unfold fsWrite
  by_cases h : fs.any (fun q => decide (q.1 = p)) = true
  · rcases List.any_eq_true.mp h with ⟨q, hq, hqp⟩
    simp only [decide_eq_true_eq] at hqp
    rw [if_pos h]
    unfold fsPaths
    refine List.mem_map.mpr ⟨(p, c), List.mem_map.mpr ⟨q, hq, ?_⟩, rfl⟩
    rw [if_pos hqp]
  · rw [if_neg h]
    simp [fsPaths]

theorem mem_fsPaths_fsWrite (fs : FS) (p q : PathC) (c : String)
    (h : q ∈ fsPaths fs) : q ∈ fsPaths (fsWrite fs p c) := by
  rcases fsPaths_fsWrite fs p c with he | he <;> simp [he, h]

theorem leadsPath_append (d rest : PathC) : leadsPath d (d ++ rest) = true := by
  induction d with
  | nil => rfl
  | cons a as ih => simp [leadsPath, ih]

theorem drop_mem_zip_entries (fs : FS) (job_id qualification : String) (p : PathC)
    (hp : p ∈ fsPaths fs) (hc : dirContains [tempRoot, job_id] p = true) :
    p.drop 2 ∈ (create_zip_archive fs job_id qualification).2.map Prod.fst := by
  rcases List.mem_map.mp hp with ⟨q, hq, hq1⟩
  refine List.mem_map.mpr ⟨(p.drop 2, q.2), ?_, rfl⟩
  unfold create_zip_archive
  refine List.mem_filterMap.mpr ⟨q, hq, ?_⟩
  rw [hq1]
  simp [hc]

theorem zip_entries_from_job_dir (fs : FS) (job_id qualification : String)
    (ent : PathC × String) (h : ent ∈ (create_zip_archive fs job_id qualification).2) :
    ∃ q ∈ fs, dirContains [tempRoot, job_id] q.1 = true ∧ ent = (q.1.drop 2, q.2) := by
  unfold create_zip_archive at h
  rcases List.mem_filterMap.mp h with ⟨q, hq, hf⟩
  by_cases hc : dirContains [tempRoot, job_id] q.1 = true
  · rw [if_pos hc] at hf
    exact ⟨q, hq, hc, (Option.some_injective _ hf).symm⟩
  · rw [if_neg hc] at hf
    cases hf

/-! ## Lemmas about the collection phase -/

theorem collectFold_fst_mem {α β : Type} (f : α → List β × List String) :
    ∀ (l : List α) (acc : List β × List String) (b : β),
      b ∈ (collectFold f l acc).1 ↔ b ∈ acc.1 ∨ ∃ a ∈ l, b ∈ (f a).1 := by
  intro l
  induction l with
  | nil => intro acc b; simp [collectFold]
  | cons a rest ih =>
    intro acc b
    rw [collectFold, ih]
    simp only [List.mem_append, List.mem_cons]
    constructor
    · rintro ((h | h) | ⟨x, hx, h⟩)
      · exact Or.inl h
      · exact Or.inr ⟨a, Or.inl rfl, h⟩
      · exact Or.inr ⟨x, Or.inr hx, h⟩
    · rintro (h | ⟨x, (rfl | hx), h⟩)
      · exact Or.inl (Or.inl h)
      · exact Or.inl (Or.inr h)
      · exact Or.inr ⟨x, hx, h⟩

theorem collectSeason_shape (env : Env)
    (qualification subject_code subject_name job_id season_id : String) (e : FileInfo)
    (he : e ∈ (collectSeason env qualification subject_code subject_name job_id
      season_id).1) :
    ∃ season_name,
      e.filepath = [tempRoot, job_id, sanitize subject_name, sanitize season_name,
        e.filename] := by
  unfold collectSeason at he
  split at he
  next => simp at he
  next season hseason =>
    split at he
    next => simp at he
    next exams hexams =>
      simp only [List.mem_map] at he
      rcases he with ⟨exam, _, rfl⟩
      exact ⟨season.name, rfl⟩

/-- Every collected file's destination lies in the job's working directory at
`<job-root>/<job-id>/<sanitized subject>/<sanitized season>/<filename>`. -/
theorem collectAll_shape (env : Env) (qualification job_id : String)
    (subjects : List String) (smap : List (String × List String)) (e : FileInfo)
    (he : e ∈ (collectAll env qualification job_id subjects smap).1) :
    ∃ sname ssname,
      e.filepath = [tempRoot, job_id, sanitize sname, sanitize ssname, e.filename] := by
  unfold collectAll at he
  rw [collectFold_fst_mem] at he
  rcases he with h | ⟨code, hc, he⟩
  · simp at h
  · unfold collectSubject at he
    split at he
    next => simp at he
    next subject hsubject =>
      rw [collectFold_fst_mem] at he
      rcases he with h | ⟨sid, _, he⟩
      · simp at h
      · rcases collectSeason_shape _ _ _ _ _ _ _ he with ⟨ssname, hp⟩
        exact ⟨subject.name, ssname, hp⟩

/-! ## Projection lemmas for the named orchestrator job states -/

theorem collectingJob_status (job0 : Job) (now : Nat) :
    (collectingJob job0 now).status = "collecting_files" := rfl

theorem collectingJob_percentage (job0 : Job) (now : Nat) :
    (collectingJob job0 now).percentage = job0.percentage := rfl

theorem failedNoFilesJob_status (job0 : Job) (now : Nat) (errs : List String) :
    (failedNoFilesJob job0 now errs).status = "failed" := rfl

theorem failedNoFilesJob_message (job0 : Job) (now : Nat) (errs : List String) :
    (failedNoFilesJob job0 now errs).message = "No files found to download." := rfl

theorem downloadingJob_status (job0 : Job) (now : Nat) (errs : List String)
    (total : Nat) : (downloadingJob job0 now errs total).status = "downloading" := rfl

theorem downloadingJob_percentage (job0 : Job) (now : Nat) (errs : List String)
    (total : Nat) : (downloadingJob job0 now errs total).percentage =
      job0.percentage := rfl

theorem downloadingJob_current_file (job0 : Job) (now : Nat) (errs : List String)
    (total : Nat) : (downloadingJob job0 now errs total).current_file = 0 := rfl

theorem downloadingJob_total_files (job0 : Job) (now : Nat) (errs : List String)
    (total : Nat) : (downloadingJob job0 now errs total).total_files = total := rfl

theorem downloadingJob_downloaded_files (job0 : Job) (now : Nat) (errs : List String)
    (total : Nat) : (downloadingJob job0 now errs total).downloaded_files =
      job0.downloaded_files := rfl

theorem downloadingJob_failed_files (job0 : Job) (now : Nat) (errs : List String)
    (total : Nat) : (downloadingJob job0 now errs total).failed_files =
      job0.failed_files := rfl

theorem creatingZipJob_status (j : Job) : (creatingZipJob j).status = "creating_zip" := rfl

theorem creatingZipJob_percentage (j : Job) : (creatingZipJob j).percentage = 95 := rfl

theorem creatingZipJob_total_files (j : Job) :
    (creatingZipJob j).total_files = j.total_files := rfl

theorem creatingZipJob_current_file (j : Job) :
    (creatingZipJob j).current_file = j.current_file := rfl

theorem creatingZipJob_downloaded_files (j : Job) :
    (creatingZipJob j).downloaded_files = j.downloaded_files := rfl

theorem creatingZipJob_failed_files (j : Job) :
    (creatingZipJob j).failed_files = j.failed_files := rfl

theorem completedJobOf_status (j : Job) (now : Nat) (zname : String) (fc : Nat) :
    (completedJobOf j now zname fc).status = "completed" := rfl

theorem completedJobOf_percentage (j : Job) (now : Nat) (zname : String) (fc : Nat) :
    (completedJobOf j now zname fc).percentage = 100 := rfl

theorem completedJobOf_total_files (j : Job) (now : Nat) (zname : String) (fc : Nat) :
    (completedJobOf j now zname fc).total_files = j.total_files := rfl

theorem completedJobOf_current_file (j : Job) (now : Nat) (zname : String) (fc : Nat) :
    (completedJobOf j now zname fc).current_file = j.current_file := rfl

theorem completedJobOf_downloaded_files (j : Job) (now : Nat) (zname : String)
    (fc : Nat) : (completedJobOf j now zname fc).downloaded_files =
      j.downloaded_files := rfl

theorem completedJobOf_failed_files (j : Job) (now : Nat) (zname : String) (fc : Nat) :
    (completedJobOf j now zname fc).failed_files = j.failed_files := rfl

/-! ## Lemmas about one step of the download loop -/

theorem downloadStep_status (total : Nat) (fetch : FileInfo → FetchOutcome)
    (st : LoopState) (e : FileInfo) :
    (downloadStep total fetch st e).job.status = st.job.status := by
  simp only [downloadStep]
  split <;> split <;> rfl

theorem downloadStep_total_files (total : Nat) (fetch : FileInfo → FetchOutcome)
    (st : LoopState) (e : FileInfo) :
    (downloadStep total fetch st e).job.total_files = st.job.total_files := by
  simp only [downloadStep]
  split <;> split <;> rfl

theorem downloadStep_current_file (total : Nat) (fetch : FileInfo → FetchOutcome)
    (st : LoopState) (e : FileInfo) :
    (downloadStep total fetch st e).job.current_file = st.job.current_file + 1 := by
  simp only [downloadStep]
  split <;> split <;> rfl

theorem downloadStep_downloaded (total : Nat) (fetch : FileInfo → FetchOutcome)
    (st : LoopState) (e : FileInfo) :
    (downloadStep total fetch st e).job.downloaded_files =
      if (fetchResult (fetch e)).1 then st.job.downloaded_files ++ [e.filename]
      else st.job.downloaded_files := by
  simp only [downloadStep, fetchResult_eq]
  split <;> split <;> simp_all

theorem downloadStep_failed (total : Nat) (fetch : FileInfo → FetchOutcome)
    (st : LoopState) (e : FileInfo) :
    (downloadStep total fetch st e).job.failed_files =
      if (fetchResult (fetch e)).1 then st.job.failed_files
      else st.job.failed_files ++ [(e.filename, (fetchResult (fetch e)).2)] := by
  simp only [downloadStep, fetchResult_eq]
  split <;> split <;> simp_all

theorem downloadStep_failed_count (total : Nat) (fetch : FileInfo → FetchOutcome)
    (st : LoopState) (e : FileInfo) :
    (downloadStep total fetch st e).failed_count =
      if (fetchResult (fetch e)).1 then st.failed_count else st.failed_count + 1 := by
  simp only [downloadStep, fetchResult_eq]

theorem downloadStep_fs (total : Nat) (fetch : FileInfo → FetchOutcome)
    (st : LoopState) (e : FileInfo) :
    (downloadStep total fetch st e).fs =
      (download_file_async e.filepath (fetch e) st.fs).2 := rfl

theorem downloadStep_percentage (total : Nat) (fetch : FileInfo → FetchOutcome)
    (st : LoopState) (e : FileInfo) (ht : 0 < total) :
    (downloadStep total fetch st e).job.percentage =
      (((st.job.current_file + 1 : Nat) : ℚ) / (total : ℚ)) * 100 := by
  simp only [downloadStep]
  rw [if_pos ht]

/-! ## Lemmas about the whole download loop -/

theorem runLoop_counts (total : Nat) (fetch : FileInfo → FetchOutcome) :
    ∀ (l : List FileInfo) (st : LoopState),
      (runLoop total fetch st l).1.job.status = st.job.status ∧
      (runLoop total fetch st l).1.job.total_files = st.job.total_files ∧
      (runLoop total fetch st l).1.job.current_file =
        st.job.current_file + l.length ∧
      (runLoop total fetch st l).1.job.downloaded_files.length =
        st.job.downloaded_files.length +
          (l.filter (fun e => (fetchResult (fetch e)).1)).length ∧
      (runLoop total fetch st l).1.job.failed_files.length =
        st.job.failed_files.length +
          (l.filter (fun e => !(fetchResult (fetch e)).1)).length ∧
      (runLoop total fetch st l).1.failed_count =
        st.failed_count + (l.filter (fun e => !(fetchResult (fetch e)).1)).length := by
  intro l
  induction l with
  | nil => intro st; simp [runLoop]
  | cons a rest ih =>
    intro st
    simp only [runLoop]
    rcases ih (downloadStep total fetch st a) with ⟨h1, h2, h3, h4, h5, h6⟩
    refine ⟨?_, ?_, ?_, ?_, ?_, ?_⟩
    · rw [h1, downloadStep_status]
    · rw [h2, downloadStep_total_files]
    · rw [h3, downloadStep_current_file]
      simp [List.length_cons]
      omega
    · rw [h4, downloadStep_downloaded]
      by_cases hf : (fetchResult (fetch a)).1 = true <;>
        simp [hf, List.filter_cons] <;> omega
    · rw [h5, downloadStep_failed]
      by_cases hf : (fetchResult (fetch a)).1 = true <;>
        simp [hf, List.filter_cons] <;> omega
    · rw [h6, downloadStep_failed_count]
      by_cases hf : (fetchResult (fetch a)).1 = true <;>
        simp [hf, List.filter_cons] <;> omega

theorem runLoop_trace_status (total : Nat) (fetch : FileInfo → FetchOutcome) :
    ∀ (l : List FileInfo) (st : LoopState),
      (runLoop total fetch st l).2.map (fun j => j.status) =
        List.replicate l.length st.job.status := by
  intro l
  induction l with
  | nil => intro st; simp [runLoop]
  | cons a rest ih =>
    intro st
    simp only [runLoop, List.map_cons, List.length_cons, List.replicate_succ]
    rw [ih (downloadStep total fetch st a), downloadStep_status]

theorem mem_fsPaths_download (filepath : PathC) (o : FetchOutcome) (fs : FS)
    (q : PathC) (h : q ∈ fsPaths fs) :
    q ∈ fsPaths (download_file_async filepath o fs).2 := by
  cases o with
  | ok c => exact mem_fsPaths_fsWrite fs filepath q c h
  | non200 code => exact h
  | timeoutErr => exact h
  | exc msg => exact h
  | excMidStream chunks msg => exact mem_fsPaths_fsWrite fs filepath q chunks h

theorem download_writes_self (filepath : PathC) (o : FetchOutcome) (fs : FS)
    (h : writesDisk o = true) :
    filepath ∈ fsPaths (download_file_async filepath o fs).2 := by
  cases o with
  | ok c => exact mem_fsPaths_fsWrite_self fs filepath c
  | non200 code => simp [writesDisk] at h
  | timeoutErr => simp [writesDisk] at h
  | exc msg => simp [writesDisk] at h
  | excMidStream chunks msg => exact mem_fsPaths_fsWrite_self fs filepath chunks

theorem runLoop_fs_mono (total : Nat) (fetch : FileInfo → FetchOutcome) :
    ∀ (l : List FileInfo) (st : LoopState) (p : PathC),
      p ∈ fsPaths st.fs → p ∈ fsPaths (runLoop total fetch st l).1.fs := by
  intro l
  induction l with
  | nil => intro st p h; exact h
  | cons a rest ih =>
    intro st p h
    refine ih (downloadStep total fetch st a) p ?_
    rw [downloadStep_fs]
    exact mem_fsPaths_download _ _ _ _ h

theorem runLoop_writes (total : Nat) (fetch : FileInfo → FetchOutcome) :
    ∀ (l : List FileInfo) (st : LoopState) (e : FileInfo),
      e ∈ l → writesDisk (fetch e) = true →
      e.filepath ∈ fsPaths (runLoop total fetch st l).1.fs := by
  intro l
  induction l with
  | nil => intro st e he; simp at he
  | cons a rest ih =>
    intro st e he hw
    rcases List.mem_cons.mp he with rfl | he
    · show e.filepath ∈ fsPaths (runLoop total fetch (downloadStep total fetch st e) rest).1.fs
      apply runLoop_fs_mono
      rw [downloadStep_fs]
      exact download_writes_self _ _ _ hw
    · exact ih (downloadStep total fetch st a) e he hw

theorem runLoop_failed_mono (total : Nat) (fetch : FileInfo → FetchOutcome) :
    ∀ (l : List FileInfo) (st : LoopState) (q : String × Option String),
      q ∈ st.job.failed_files → q ∈ (runLoop total fetch st l).1.job.failed_files := by
  intro l
  induction l with
  | nil => intro st q h; exact h
  | cons a rest ih =>
    intro st q h
    refine ih (downloadStep total fetch st a) q ?_
    rw [downloadStep_failed]
    split <;> simp [h]

theorem runLoop_failed_mem (total : Nat) (fetch : FileInfo → FetchOutcome) :
    ∀ (l : List FileInfo) (st : LoopState) (e : FileInfo),
      e ∈ l → (fetchResult (fetch e)).1 = false →
      (e.filename, (fetchResult (fetch e)).2) ∈
        (runLoop total fetch st l).1.job.failed_files := by
  intro l
  induction l with
  | nil => intro st e he; simp at he
  | cons a rest ih =>
    intro st e he hf
    rcases List.mem_cons.mp he with rfl | he
    · show (e.filename, (fetchResult (fetch e)).2) ∈
        (runLoop total fetch (downloadStep total fetch st e) rest).1.job.failed_files
      apply runLoop_failed_mono
      rw [downloadStep_failed, hf]
      simp
    · exact ih (downloadStep total fetch st a) e he hf

theorem runLoop_trace_pct_chain (total : Nat) (fetch : FileInfo → FetchOutcome)
    (ht : 0 < total) :
    ∀ (l : List FileInfo) (st : LoopState),
      st.job.percentage ≤ (((st.job.current_file + 1 : Nat) : ℚ) / (total : ℚ)) * 100 →
      List.Chain' (· ≤ ·)
        (st.job.percentage :: (runLoop total fetch st l).2.map (fun j => j.percentage)) := by
  intro l
  induction l with
  | nil => intro st h; simp [runLoop]
  | cons a rest ih =>
    intro st h
    simp only [runLoop, List.map_cons]
    rw [List.chain'_cons]
    have hpct := downloadStep_percentage total fetch st a ht
    have hcur := downloadStep_current_file total fetch st a
    constructor
    · rw [hpct]; exact h
    · have hnext : (downloadStep total fetch st a).job.percentage ≤
          ((((downloadStep total fetch st a).job.current_file + 1 : Nat) : ℚ) /
            (total : ℚ)) * 100 := by
        rw [hpct, hcur]
        have htq : (0 : ℚ) < (total : ℚ) := by exact_mod_cast ht
        have hle : ((st.job.current_file + 1 : Nat) : ℚ) ≤
            ((st.job.current_file + 1 + 1 : Nat) : ℚ) := by
          exact_mod_cast Nat.le_succ (st.job.current_file + 1)
        have := (div_le_div_right htq).mpr hle
        exact mul_le_mul_of_nonneg_right this (by norm_num)
      exact ih (downloadStep total fetch st a) hnext

theorem runLoop_pct_last (total : Nat) (fetch : FileInfo → FetchOutcome) (ht : 0 < total) :
    ∀ (l : List FileInfo) (st : LoopState), l ≠ [] →
      (runLoop total fetch st l).1.job.percentage =
        (((st.job.current_file + l.length : Nat) : ℚ) / (total : ℚ)) * 100 := by
  intro l
  induction l with
  | nil => intro st h; exact absurd rfl h
  | cons a rest ih =>
    intro st h
    by_cases hr : rest = []
    · subst hr
      show (downloadStep total fetch st a).job.percentage = _
      rw [downloadStep_percentage total fetch st a ht]
      norm_num
    · show (runLoop total fetch (downloadStep total fetch st a) rest).1.job.percentage = _
      rw [ih (downloadStep total fetch st a) hr, downloadStep_current_file]
      congr 2
      push_cast [List.length_cons]
      ring

/-! ## Miscellaneous helper lemmas -/

theorem runLoop_trace_concat (total : Nat) (fetch : FileInfo → FetchOutcome) :
    ∀ (l : List FileInfo) (e : FileInfo) (st : LoopState),
      (runLoop total fetch st (l ++ [e])).2 =
        (runLoop total fetch st l).2 ++ [(runLoop total fetch st (l ++ [e])).1.job] := by
  intro l
  induction l with
  | nil => intro e st; rfl
  | cons a rest ih =>
    intro e st
    simp only [List.cons_append, runLoop, List.append_eq]
    rw [ih e (downloadStep total fetch st a)]

theorem length_filter_add_length_filter_not {α : Type} (p : α → Bool) (l : List α) :
    (l.filter p).length + (l.filter (fun a => !p a)).length = l.length := by
  induction l with
  | nil => rfl
  | cons a rest ih =>
    by_cases h : p a = true <;> simp [List.filter_cons, h] <;> omega

theorem buildSeasonMapFrom_error (s : String) (hsplit : splitFirstColon s = none) :
    ∀ (l : List String) (acc : List (String × List String)), s ∈ l →
      ∃ err, buildSeasonMapFrom acc l = Except.error err := by
  intro l
  induction l with
  | nil => intro acc hmem; simp at hmem
  | cons a rest ih =>
    intro acc hmem
    rcases List.mem_cons.mp hmem with rfl | hmem
    · exact ⟨"not enough values to unpack while parsing " ++ s,
        by simp [buildSeasonMapFrom, hsplit]⟩
    · cases ha : splitFirstColon a with
      | none => exact ⟨"not enough values to unpack while parsing " ++ a,
          by simp [buildSeasonMapFrom, ha]⟩
      | some parts =>
        rcases ih (insertSeason acc parts.1 parts.2) hmem with ⟨err, herr⟩
        exact ⟨err, by simp [buildSeasonMapFrom, ha, herr]⟩

theorem dirContains_collected (job_id a b c : String) :
    dirContains [tempRoot, job_id] [tempRoot, job_id, a, b, c] = true := by
  simp [dirContains, leadsPath]

theorem jobTempPath_ne_jobRecordPath (job_id : String) :
    jobTempPath job_id ≠ jobRecordPath job_id := by
  unfold jobTempPath jobRecordPath jobStorageDir
  intro h
  simp only [List.append_cancel_left_eq, List.cons.injEq, and_true] at h
  have hlen := congrArg String.length h
  rw [String.length_append, String.length_append] at hlen
  simp only [Nat.add_right_cancel_iff, Nat.add_left_cancel_iff] at hlen
  exact absurd hlen (by decide)

theorem phasesMonotone_cons (a b : String) (t : List String)
    (hab : phaseIdx a ≤ phaseIdx b) (ht : phasesMonotone (b :: t) = true) :
    phasesMonotone (a :: b :: t) = true := by
  rw [phasesMonotone]
  simp [hab, ht]

theorem phasesMonotone_downloading_tail (k : Nat) :
    phasesMonotone ("downloading" :: (List.replicate k "downloading" ++
      ["creating_zip", "completed"])) = true := by
  induction k with
  | zero => rfl
  | succ n ih =>
    rw [List.replicate_succ, List.cons_append]
    exact phasesMonotone_cons _ _ _ (le_refl _) ih

/-! ## Claim C7: file fetcher error taxonomy -/

/-- C7 counterexample: on a non-200 response (status 404) the fetcher's error
string is `"HTTP 404"`, not the bare status code `"404"` that the claim
states. -/
theorem c7_non200_error_string_cx :
    (download_file_async ["f.pdf"] (FetchOutcome.non200 404) []).1 =
      (false, some "HTTP 404") ∧ "HTTP 404" ≠ "404" := by
  exact ⟨rfl, by decide⟩

/-- C7 (amended): the file fetcher never raises past its boundary — each
outcome maps to a returned pair: a fully streamed HTTP 200 body yields
`(true, none)`; a non-200 response yields failure with the error string
`"HTTP "` followed by the status code; a timeout yields `(false, "Timeout")`;
any other exception (before or during streaming) yields `(false, message)`. -/
theorem c7_fetcher_result_amended (filepath : PathC) (fs : FS) (c : String)
    (code : Nat) (m chunks : String) :
    (download_file_async filepath (FetchOutcome.ok c) fs).1 = (true, none) ∧
    (download_file_async filepath (FetchOutcome.non200 code) fs).1 =
      (false, some ("HTTP " ++ toString code)) ∧
    (download_file_async filepath FetchOutcome.timeoutErr fs).1 =
      (false, some "Timeout") ∧
    (download_file_async filepath (FetchOutcome.exc m) fs).1 = (false, some m) ∧
    (download_file_async filepath (FetchOutcome.excMidStream chunks m) fs).1 =
      (false, some m) :=
  ⟨rfl, rfl, rfl, rfl, rfl⟩

/-! ## Claim C8: metadata cache reads -/

/-- C8 counterexample: at instant 10 the qualifications entry (expiry 5) is
expired; the read treats it as absent but does not evict it — the stale
entry is still in the cache after the read. -/
theorem c8_qualifications_no_evict_cx :
    get_qualifications_cached 10 staleCache = (none, staleCache) ∧
    staleCache.qualifications_cache ≠ none := by
  exact ⟨rfl, by decide⟩

/-- C8 (amended): every metadata-cache read returns the cached payload iff
now is strictly before the entry's expiry, and otherwise treats the entry as
absent; the seasons, file-count and subjects reads also evict the expired
entry at that read, but the qualifications read leaves the expired entry in
place (it is only removed by `clear_expired_cache`). -/
theorem c8_cache_read_amended (now : Nat) (st : CacheState)
    (qualification subject_code url : String) (sdata : List String) (cnt : Nat)
    (exp : Nat) (qdata : List String) :
    (alistGet st.seasons_cache (get_cache_key qualification subject_code) =
        some (sdata, exp) →
      (now < exp →
        get_seasons_cached now st qualification subject_code = (some sdata, st)) ∧
      (¬ now < exp →
        get_seasons_cached now st qualification subject_code =
          (none, { st with
            seasons_cache :=
              alistErase st.seasons_cache
                (get_cache_key qualification subject_code) }))) ∧
    (alistGet st.seasons_cache (get_cache_key qualification subject_code) = none →
      get_seasons_cached now st qualification subject_code = (none, st)) ∧
    (alistGet st.file_count_cache url = some (cnt, exp) →
      (now < exp → get_file_count_cached now st url = (some cnt, st)) ∧
      (¬ now < exp → get_file_count_cached now st url =
        (none, { st with file_count_cache := alistErase st.file_count_cache url }))) ∧
    (alistGet st.file_count_cache url = none →
      get_file_count_cached now st url = (none, st)) ∧
    (alistGet st.subjects_cache qualification = some (sdata, exp) →
      (now < exp → get_subjects_cached now st qualification = (some sdata, st)) ∧
      (¬ now < exp → get_subjects_cached now st qualification =
        (none, { st with
          subjects_cache := alistErase st.subjects_cache qualification }))) ∧
    (alistGet st.subjects_cache qualification = none →
      get_subjects_cached now st qualification = (none, st)) ∧
    (st.qualifications_cache = some (qdata, exp) →
      (now < exp → get_qualifications_cached now st = (some qdata, st)) ∧
      (¬ now < exp → get_qualifications_cached now st = (none, st))) ∧
    (st.qualifications_cache = none → get_qualifications_cached now st = (none, st)) := by
  refine ⟨?_, ?_, ?_, ?_, ?_, ?_, ?_, ?_⟩
  · intro h
    constructor
    · intro hlt
      simp only [get_seasons_cached, h]
      rw [if_pos hlt]
    · intro hlt
      simp only [get_seasons_cached, h]
      rw [if_neg hlt]
  · intro h
    simp only [get_seasons_cached, h]
  · intro h
    constructor
    · intro hlt
      simp only [get_file_count_cached, h]
      rw [if_pos hlt]
    · intro hlt
      simp only [get_file_count_cached, h]
      rw [if_neg hlt]
  · intro h
    simp only [get_file_count_cached, h]
  · intro h
    constructor
    · intro hlt
      simp only [get_subjects_cached, h]
      rw [if_pos hlt]
    · intro hlt
      simp only [get_subjects_cached, h]
      rw [if_neg hlt]
  · intro h
    simp only [get_subjects_cached, h]
  · intro h
    constructor
    · intro hlt
      simp only [get_qualifications_cached, h]
      rw [if_pos hlt]
    · intro hlt
      simp only [get_qualifications_cached, h]
      rw [if_neg hlt]
  · intro h
    simp only [get_qualifications_cached, h]

/-- Witness for C8 (amended): at instant 10 the expired seasons entry of the
concrete cache is read as absent and evicted. -/
theorem c8_cache_read_amended_witness :
    get_seasons_cached 10 staleCache "caie" "9700" =
      (none, { staleCache with
        seasons_cache :=
          alistErase staleCache.seasons_cache (get_cache_key "caie" "9700") }) :=
  ((c8_cache_read_amended 10 staleCache "caie" "9700" "season-url" ["s1"] 3 5
    ["AS-A-Level"]).1 rfl).2 (by decide)

/-! ## Claim C6: persistence of a newly created job -/

/-- C6 counterexample: the disk effects of `create_download_job` for job id
`"j1"` include a direct write of the record to its final path and no rename,
so the creation-time durable write is not temp-then-rename atomic. -/
theorem c6_create_not_atomic_cx :
    writesDirectly (create_download_job [] "j1" "caie" ["9700"] ["9700:s1"] "zip" 0
      "payload").2.2 (jobRecordPath "j1") = true ∧
    atomicReplace (create_download_job [] "j1" "caie" ["9700"] ["9700:s1"] "zip" 0
      "payload").2.2 (jobRecordPath "j1") = false := by
  exact ⟨by decide, by decide⟩

/-- C6 (amended): creating a job persists the initial record to the
in-memory table and writes it to the durable per-job file, but that
creation-time write goes directly to the final path (not atomic); the
`save_job_to_file` operation used for every later update is the atomic
write-temp-then-rename sequence. -/
theorem c6_create_persists_amended (store : List (String × Job))
    (job_id qualification : String) (subjects seasons : List String)
    (download_method payload : String) (now : Nat) :
    (create_download_job store job_id qualification subjects seasons download_method
        now payload).1 =
      store ++ [(job_id, create_download_job_record job_id qualification subjects
        seasons download_method now)] ∧
    (create_download_job store job_id qualification subjects seasons download_method
        now payload).2.2 =
      [FsOp.mkdirAll jobStorageDir, FsOp.writeFile (jobRecordPath job_id) payload] ∧
    atomicReplace (create_download_job store job_id qualification subjects seasons
      download_method now payload).2.2 (jobRecordPath job_id) = false ∧
    save_job_to_file_ops job_id payload =
      [FsOp.mkdirAll jobStorageDir, FsOp.writeFile (jobTempPath job_id) payload,
       FsOp.rename (jobTempPath job_id) (jobRecordPath job_id)] ∧
    atomicReplace (save_job_to_file_ops job_id payload) (jobRecordPath job_id) =
      true := by
  have hne := jobTempPath_ne_jobRecordPath job_id
  refine ⟨rfl, rfl, ?_, rfl, ?_⟩
  · simp [atomicReplace, writesDirectly, renamesInto, create_download_job]
  · simp [atomicReplace, writesDirectly, renamesInto, save_job_to_file_ops, hne]

/-! ## Claim C5: boundary validation of caller input -/

/-- C5 counterexample: an empty subject selection is rejected with HTTP 500
(the handler's catch-all re-raises its own 400 as a 500), which is not a
4xx-class outcome; and a malformed season selector without `:` is not
rejected at the boundary at all — the request is accepted with 202 while the
orchestrator's season parsing fails only later, in the background task. -/
theorem c5_boundary_cx :
    start_bulk_download emptySubjectsReq "j-new" =
      ApiOutcome.httpError 500 "Error starting download: 400: No subjects selected" ∧
    is4xx 500 = false ∧
    (∃ body, start_bulk_download malformedSelectorReq "j-new" =
      ApiOutcome.ok 202 body) ∧
    (∃ err, buildSeasonMap malformedSelectorReq.seasons = Except.error err) := by
  refine ⟨by decide, by decide, ⟨_, rfl⟩, ⟨_, rfl⟩⟩

/-- C5 (amended): empty subject and empty season selections are rejected at
the request handler before orchestration starts, but the rejection surfaces
as a 500-class outcome whose detail wraps the intended 400 message; a
season-selector string missing the `:` delimiter is not validated at the
boundary — such a request is accepted with 202 and the missing-delimiter
unpacking error occurs later inside the background orchestration. -/
theorem c5_boundary_amended (req : BulkDownloadRequest) (new_job_id : String) :
    (req.subjects = [] →
      start_bulk_download req new_job_id = ApiOutcome.httpError 500
        ("Error starting download: " ++ strOfHTTPException 400 "No subjects selected")) ∧
    (req.subjects ≠ [] → req.seasons = [] →
      start_bulk_download req new_job_id = ApiOutcome.httpError 500
        ("Error starting download: " ++ strOfHTTPException 400 "No seasons selected")) ∧
    (req.subjects ≠ [] → req.seasons ≠ [] →
      start_bulk_download req new_job_id = ApiOutcome.ok 202
        { job_id := new_job_id, status := "initializing", total_files := 0,
          message := "Starting download... Please wait." }) ∧
    (∀ s ∈ req.seasons, splitFirstColon s = none →
      ∃ err, buildSeasonMap req.seasons = Except.error err) := by
  refine ⟨?_, ?_, ?_, ?_⟩
  · intro h
    simp [start_bulk_download, h]
  · intro h1 h2
    simp [start_bulk_download, h1, h2]
  · intro h1 h2
    simp [start_bulk_download, h1, h2]
  · intro s hs hsplit
    exact buildSeasonMapFrom_error s hsplit req.seasons [] hs

/-- Witness for C5 (amended): the empty-subjects request is rejected with the
wrapped 500, and the malformed-selector request's season list makes the
orchestrator's parsing fail. -/
theorem c5_boundary_amended_witness :
    start_bulk_download emptySubjectsReq "j-new" = ApiOutcome.httpError 500
      ("Error starting download: " ++ strOfHTTPException 400 "No subjects selected") ∧
    (∃ err, buildSeasonMap malformedSelectorReq.seasons = Except.error err) :=
  ⟨(c5_boundary_amended emptySubjectsReq "j-new").1 rfl,
   (c5_boundary_amended malformedSelectorReq "j-new").2.2.2 "malformed"
     (by decide) (by decide)⟩

/-! ## Claim C2: monotone lifecycle transitions -/

/-- C2 counterexample: applying the explicit start-direct transition to a job
already in the terminal `completed` state changes its status back to
`downloading`, so a terminal job's status is not preserved by every exposed
operation. -/
theorem c2_terminal_not_preserved_cx :
    completedJob.status = "completed" ∧
    ((start_direct_downloads (some completedJob)).2.map (fun j => j.status)) =
      some "downloading" ∧
    "downloading" ≠ "completed" := by
  exact ⟨rfl, rfl, by decide⟩

/-- C2 (amended): the transitions performed by the orchestrator itself are
phase-monotone in both archive mode and direct mode, and job cleanup
preserves the status; but the explicit start-direct endpoint sets the status
to `downloading` unconditionally, whatever the job's current state —
including the terminal states. -/
theorem c2_transitions_amended (env : Env) (fetch : FileInfo → FetchOutcome)
    (order : List FileInfo) (qualification : String) (subjects seasons : List String)
    (job_id : String) (job0 : Job) (fs0 : FS) (now : Nat) (res : RunResult)
    (pr : Job × List Job)
    (h : download_bulk_files env fetch order qualification subjects seasons job_id
      job0 fs0 now = Except.ok res)
    (hd : download_direct_files env qualification subjects seasons job_id job0 now =
      Except.ok pr) :
    phasesMonotone ("pending" :: res.trace.map (fun j => j.status)) = true ∧
    phasesMonotone ("pending" :: pr.2.map (fun j => j.status)) = true ∧
    (∀ j : Job, ((start_direct_downloads (some j)).2.map (fun jj => jj.status)) =
      some "downloading") ∧
    (∀ j : Job, (cleanup_job j).status = j.status) := by
  refine ⟨?_, ?_, fun j => rfl, fun j => rfl⟩
  · unfold download_bulk_files at h
    split at h
    next => cases h
    next smap heq =>
      dsimp only at h
      split at h
      next hz =>
        injection h with h2
        subst h2
        simp [phasesMonotone, phaseIdx, collectingJob, collectedJob, failedNoFilesJob]
      next hz =>
        injection h with h2
        subst h2
        simp only [List.map_append, List.map_cons, List.map_nil]
        rw [runLoop_trace_status]
        simp only [List.cons_append, List.nil_append, collectingJob_status,
          downloadingJob_status, creatingZipJob_status, completedJobOf_status]
        refine phasesMonotone_cons _ _ _ (by decide) ?_
        refine phasesMonotone_cons _ _ _ (by decide) ?_
        exact phasesMonotone_downloading_tail order.length
  · unfold download_direct_files at hd
    split at hd
    next => cases hd
    next smap heq =>
      injection hd with hd2
      subst hd2
      simp [phasesMonotone, phaseIdx]

/-- Witness for C2 (amended): instantiated on the concrete one-file archive
run and the concrete direct run. -/
theorem c2_transitions_amended_witness :
    phasesMonotone ("pending" :: sampleRun.trace.map (fun j => j.status)) = true ∧
    phasesMonotone ("pending" :: sampleDirectPair.2.map (fun j => j.status)) = true ∧
    (∀ j : Job, ((start_direct_downloads (some j)).2.map (fun jj => jj.status)) =
      some "downloading") ∧
    (∀ j : Job, (cleanup_job j).status = j.status) :=
  c2_transitions_amended sampleEnv fetchAllOk sampleOrder "caie" ["9700"] ["9700:s1"]
    "job-0001" sampleJob0 [] 3 sampleRun sampleDirectPair
    (by with_unfolding_all rfl) (by with_unfolding_all rfl)

/-! ## Claim C3: zero discovered files -/

/-- C3 counterexample: with zero discovered files the direct-mode job ends in
status `ready`, not `failed`; and even in archive mode the failure message
carries a trailing period, `"No files found to download."`. -/
theorem c3_zero_files_cx :
    zeroDirectPair.1.total_files = 0 ∧
    zeroDirectPair.1.status = "ready" ∧
    "ready" ≠ "failed" ∧
    zeroBulkRun.job.message = "No files found to download." ∧
    "No files found to download." ≠ "No files found to download" := by
  refine ⟨?_, ?_, by decide, ?_, by decide⟩
  · with_unfolding_all rfl
  · with_unfolding_all rfl
  · with_unfolding_all rfl

/-- C3 (amended): in archive mode, a collection phase that discovers zero
files sends the job to `failed` with the message
`"No files found to download."` and the run's status snapshots are exactly
`collecting_files` then `failed` — it never reaches `downloading`; in
direct/link mode there is no zero-file check: the job reaches `ready`
regardless of how many files were discovered. -/
theorem c3_zero_files_amended (env : Env) (fetch : FileInfo → FetchOutcome)
    (order : List FileInfo) (qualification : String) (subjects seasons : List String)
    (job_id : String) (job0 : Job) (fs0 : FS) (now : Nat) (res : RunResult)
    (envD : Env) (qualificationD : String) (subjectsD seasonsD : List String)
    (job_idD : String) (job0D : Job) (nowD : Nat) (pr : Job × List Job)
    (h : download_bulk_files env fetch order qualification subjects seasons job_id
      job0 fs0 now = Except.ok res)
    (hz : res.job.total_files = 0)
    (hd : download_direct_files envD qualificationD subjectsD seasonsD job_idD job0D
      nowD = Except.ok pr) :
    res.job.status = "failed" ∧
    res.job.message = "No files found to download." ∧
    res.trace.map (fun j => j.status) = ["collecting_files", "failed"] ∧
    pr.1.status = "ready" := by
  have hready : pr.1.status = "ready" := by
    unfold download_direct_files at hd
    split at hd
    next => cases hd
    next smap heq =>
      injection hd with hd2
      subst hd2
      rfl
  unfold download_bulk_files at h
  split at h
  next => cases h
  next smap heq =>
    dsimp only at h
    split at h
    next hz0 =>
      injection h with h2
      subst h2
      exact ⟨rfl, rfl, rfl, hready⟩
    next hz0 =>
      exfalso
      injection h with h2
      subst h2
      rcases runLoop_counts
        (collectAll env qualification job_id subjects smap).1.length fetch order
        { job := _, fs := fs0, failed_count := 0 } with ⟨_, h2, _⟩
      simp only [completedJobOf_total_files, creatingZipJob_total_files] at hz
      rw [h2] at hz
      simp only [downloadingJob_total_files] at hz
      exact hz0 hz

/-- Witness for C3 (amended): the concrete zero-file archive run fails with
the expected message and never shows `downloading`, while the concrete
zero-file direct run ends `ready`. -/
theorem c3_zero_files_amended_witness :
    zeroBulkRun.job.status = "failed" ∧
    zeroBulkRun.job.message = "No files found to download." ∧
    zeroBulkRun.trace.map (fun j => j.status) = ["collecting_files", "failed"] ∧
    zeroDirectPair.1.status = "ready" :=
  c3_zero_files_amended emptyEnv fetchAllOk [] "caie" ["9700"] ["9700:s1"] "job-0002"
    (create_download_job_record "job-0002" "caie" ["9700"] ["9700:s1"] "zip" 0) [] 0
    zeroBulkRun emptyEnv "caie" ["9700"] ["9700:s1"] "job-0003"
    (create_download_job_record "job-0003" "caie" ["9700"] ["9700:s1"] "direct" 0) 0
    zeroDirectPair (by with_unfolding_all rfl) (by with_unfolding_all rfl)
    (by with_unfolding_all rfl)

/-! ## Claim C4: completion and per-file failure isolation -/

/-- C4: over N discovered files of which exactly K fetches fail (N > 0, so
the run enters the download phase at all — with N = 0 the job fails instead,
see C3), the orchestrator reaches `completed` with `current_file = N`,
`N - K` downloaded filenames and `K` failure records; no per-file failure
aborts the job. -/
theorem c4_completion_counts (env : Env) (fetch : FileInfo → FetchOutcome)
    (order : List FileInfo) (qualification : String) (subjects seasons : List String)
    (job_id : String) (job0 : Job) (fs0 : FS) (now : Nat)
    (smap : List (String × List String)) (res : RunResult)
    (hs : buildSeasonMap seasons = Except.ok smap)
    (hord : order.Perm (collectAll env qualification job_id subjects smap).1)
    (hn : (collectAll env qualification job_id subjects smap).1 ≠ [])
    (hd0 : job0.downloaded_files = []) (hf0 : job0.failed_files = [])
    (h : download_bulk_files env fetch order qualification subjects seasons job_id
      job0 fs0 now = Except.ok res) :
    res.job.status = "completed" ∧
    res.job.current_file = (collectAll env qualification job_id subjects smap).1.length ∧
    res.job.downloaded_files.length =
      (collectAll env qualification job_id subjects smap).1.length -
        (order.filter (fun e => !(fetchResult (fetch e)).1)).length ∧
    res.job.failed_files.length =
      (order.filter (fun e => !(fetchResult (fetch e)).1)).length := by
  have hlen : order.length = (collectAll env qualification job_id subjects smap).1.length :=
    hord.length_eq
  unfold download_bulk_files at h
  rw [hs] at h
  dsimp only at h
  split at h
  next hz0 => exact absurd (List.length_eq_zero.mp hz0) hn
  next hz0 =>
    injection h with h2
    subst h2
    obtain ⟨hst, htot, hcur, hdl, hfl, hfc⟩ := runLoop_counts
      (collectAll env qualification job_id subjects smap).1.length fetch order
      { job := _, fs := fs0, failed_count := 0 }
    have hsum := length_filter_add_length_filter_not
      (fun e => (fetchResult (fetch e)).1) order
    refine ⟨rfl, ?_, ?_, ?_⟩
    · simp only [completedJobOf_current_file, creatingZipJob_current_file]
      rw [hcur]
      simp only [downloadingJob_current_file]
      omega
    · simp only [completedJobOf_downloaded_files, creatingZipJob_downloaded_files]
      rw [hdl]
      simp only [downloadingJob_downloaded_files, hd0, List.length_nil]
      omega
    · simp only [completedJobOf_failed_files, creatingZipJob_failed_files]
      rw [hfl]
      simp only [downloadingJob_failed_files, hf0, List.length_nil]
      omega

/-- Witness for C4: the concrete one-file run with every fetch succeeding
(N = 1, K = 0) completes with one downloaded file and no failures. -/
theorem c4_completion_counts_witness :
    sampleRun.job.status = "completed" ∧
    sampleRun.job.current_file =
      (collectAll sampleEnv "caie" "job-0001" ["9700"] sampleSeasonMap).1.length ∧
    sampleRun.job.downloaded_files.length =
      (collectAll sampleEnv "caie" "job-0001" ["9700"] sampleSeasonMap).1.length -
        (sampleOrder.filter (fun e => !(fetchResult (fetchAllOk e)).1)).length ∧
    sampleRun.job.failed_files.length =
      (sampleOrder.filter (fun e => !(fetchResult (fetchAllOk e)).1)).length :=
  c4_completion_counts sampleEnv fetchAllOk sampleOrder "caie" ["9700"] ["9700:s1"]
    "job-0001" sampleJob0 [] 3 sampleSeasonMap sampleRun (by with_unfolding_all rfl)
    (List.Perm.refl _) (by with_unfolding_all decide) rfl rfl
    (by with_unfolding_all rfl)

theorem loop_pct_package (total : Nat) (fetch : FileInfo → FetchOutcome)
    (ht : 0 < total) (st : LoopState) (l : List FileInfo) (hl : l ≠ [])
    (hp : st.job.percentage = 0) (hc : st.job.current_file = 0)
    (hlen : l.length = total) :
    List.Chain' (· ≤ ·)
      ((0 : ℚ) :: 0 :: (runLoop total fetch st l).2.map (fun j => j.percentage)) ∧
    ((0 : ℚ) :: 0 :: (runLoop total fetch st l).2.map (fun j => j.percentage)).getLast? =
      some 100 := by
  constructor
  · rw [List.chain'_cons]
    refine ⟨le_refl 0, ?_⟩
    have hch := runLoop_trace_pct_chain total fetch ht l st ?_
    · rw [hp] at hch
      exact hch
    · rw [hp]
      positivity
  · rcases List.eq_nil_or_concat l with rfl | ⟨l2, a, rfl⟩
    · exact absurd rfl hl
    · simp only [List.concat_eq_append] at hl hlen ⊢
      rw [runLoop_trace_concat, List.map_append]
      simp only [List.map_cons, List.map_nil]
      rw [show ((0:ℚ) :: 0 :: ((runLoop total fetch st l2).2.map (fun j => j.percentage) ++
            [(runLoop total fetch st (l2 ++ [a])).1.job.percentage])) =
          (((0:ℚ) :: 0 :: (runLoop total fetch st l2).2.map (fun j => j.percentage)) ++
            [(runLoop total fetch st (l2 ++ [a])).1.job.percentage]) from rfl]
      rw [List.getLast?_concat]
      congr 1
      rw [runLoop_pct_last total fetch ht (l2 ++ [a]) st (by simp), hc]
      rw [Nat.zero_add, hlen]
      have hne : ((total : ℚ)) ≠ 0 := by
        exact_mod_cast Nat.pos_iff_ne_zero.mp ht
      rw [div_self hne, one_mul]

/-! ## Claim C1: monotone percentage counter -/

/-- C1 counterexample: in the completed one-file run the successive
percentage values of the orchestrator's updates are 0, 0, 100, 95, 100 — the
`creating_zip` update decreases the percentage from 100 to 95, so the
counter is not monotonically non-decreasing over the job's lifetime. -/
theorem c1_percentage_cx :
    sampleRun.trace.map (fun j => j.percentage) = [0, 0, 100, 95, 100] ∧
    nondecreasing (sampleRun.trace.map (fun j => j.percentage)) = false := by
  constructor
  · with_unfolding_all decide
  · with_unfolding_all decide

/-- C1 (amended): the percentage updates are non-decreasing throughout the
collection and download phases, and from `creating_zip` (95) up to
`completed` (100); the one decreasing step is the `creating_zip` update
itself, which resets the percentage to 95 after the download loop has ended
at exactly 100. -/
theorem c1_percentage_amended (env : Env) (fetch : FileInfo → FetchOutcome)
    (order : List FileInfo) (qualification : String) (subjects seasons : List String)
    (job_id : String) (job0 : Job) (fs0 : FS) (now : Nat)
    (smap : List (String × List String)) (res : RunResult)
    (hs : buildSeasonMap seasons = Except.ok smap)
    (hord : order.Perm (collectAll env qualification job_id subjects smap).1)
    (hn : (collectAll env qualification job_id subjects smap).1 ≠ [])
    (hp0 : job0.percentage = 0)
    (h : download_bulk_files env fetch order qualification subjects seasons job_id
      job0 fs0 now = Except.ok res) :
    ∃ pre, res.trace.map (fun j => j.percentage) = pre ++ [95, 100] ∧
      List.Chain' (· ≤ ·) pre ∧ pre.getLast? = some 100 := by
  have hlen : order.length = (collectAll env qualification job_id subjects smap).1.length :=
    hord.length_eq
  have horder : order ≠ [] := by
    intro hnil
    rw [hnil] at hlen
    exact hn (List.length_eq_zero.mp hlen.symm)
  have htot : 0 < (collectAll env qualification job_id subjects smap).1.length := by
    rcases Nat.eq_zero_or_pos (collectAll env qualification job_id subjects smap).1.length
      with h0 | h0
    · exact absurd (List.length_eq_zero.mp h0) hn
    · exact h0
  unfold download_bulk_files at h
  rw [hs] at h
  dsimp only at h
  split at h
  next hz0 => exact absurd (List.length_eq_zero.mp hz0) hn
  next hz0 =>
    injection h with h2
    subst h2
    obtain ⟨hchain, hlast⟩ := loop_pct_package
      (collectAll env qualification job_id subjects smap).1.length fetch htot
      { job := downloadingJob job0 now
          (collectAll env qualification job_id subjects smap).2
          (collectAll env qualification job_id subjects smap).1.length
        fs := fs0
        failed_count := 0 }
      order horder (by simpa [downloadingJob_percentage] using hp0)
      (downloadingJob_current_file job0 now _ _) hlen
    refine ⟨0 :: 0 ::
      ((runLoop (collectAll env qualification job_id subjects smap).1.length fetch
        { job := downloadingJob job0 now
            (collectAll env qualification job_id subjects smap).2
            (collectAll env qualification job_id subjects smap).1.length
          fs := fs0
          failed_count := 0 } order).2.map
          (fun j => j.percentage)), ?_, hchain, hlast⟩
    simp [collectingJob_percentage, downloadingJob_percentage, creatingZipJob_percentage,
      completedJobOf_percentage, hp0]

/-- Witness for C1 (amended): instantiated on the concrete one-file run. -/
theorem c1_percentage_amended_witness :
    ∃ pre, sampleRun.trace.map (fun j => j.percentage) = pre ++ [95, 100] ∧
      List.Chain' (· ≤ ·) pre ∧ pre.getLast? = some 100 :=
  c1_percentage_amended sampleEnv fetchAllOk sampleOrder "caie" ["9700"] ["9700:s1"]
    "job-0001" sampleJob0 [] 3 sampleSeasonMap sampleRun rfl
    (List.Perm.refl _) (by decide) rfl (by with_unfolding_all rfl)

/-! ## Claim C9: archive round-trip -/

/-- C9: for every archive-mode run, every successfully fetched file's
destination is `<job-root>/<job-id>/<sanitized subject>/<sanitized season>/
<filename>`, the file appears in the produced archive under that path
relative to the job's working root, and every archive entry originates from
a file below the job's working directory. -/
theorem c9_archive_roundtrip (env : Env) (fetch : FileInfo → FetchOutcome)
    (order : List FileInfo) (qualification : String) (subjects seasons : List String)
    (job_id : String) (job0 : Job) (fs0 : FS) (now : Nat)
    (smap : List (String × List String)) (res : RunResult) (e : FileInfo) (c : String)
    (hs : buildSeasonMap seasons = Except.ok smap)
    (hord : order.Perm (collectAll env qualification job_id subjects smap).1)
    (h : download_bulk_files env fetch order qualification subjects seasons job_id
      job0 fs0 now = Except.ok res)
    (he : e ∈ order) (hok : fetch e = FetchOutcome.ok c) :
    (∃ sname ssname, e.filepath =
      [tempRoot, job_id, sanitize sname, sanitize ssname, e.filename]) ∧
    e.filepath.drop 2 ∈ res.zip_entries.map Prod.fst ∧
    (∀ ent ∈ res.zip_entries, ∃ q ∈ res.fs,
      dirContains [tempRoot, job_id] q.1 = true ∧ ent = (q.1.drop 2, q.2)) := by
  have hmem : e ∈ (collectAll env qualification job_id subjects smap).1 :=
    hord.mem_iff.mp he
  have hshape := collectAll_shape env qualification job_id subjects smap e hmem
  have hn : (collectAll env qualification job_id subjects smap).1 ≠ [] := by
    intro hnil
    rw [hnil] at hmem
    simp at hmem
  unfold download_bulk_files at h
  rw [hs] at h
  dsimp only at h
  split at h
  next hz0 => exact absurd (List.length_eq_zero.mp hz0) hn
  next hz0 =>
    injection h with h2
    subst h2
    refine ⟨hshape, ?_, ?_⟩
    · refine drop_mem_zip_entries _ job_id qualification e.filepath ?_ ?_
      · exact runLoop_writes _ fetch order _ e he (by rw [hok]; rfl)
      · rcases hshape with ⟨sn, ssn, hpath⟩
        rw [hpath]
        exact dirContains_collected job_id _ _ _
    · intro ent hent
      exact zip_entries_from_job_dir _ job_id qualification ent hent

/-- Witness for C9: in the concrete one-file run the fetched file shows up in
the archive at `Biology/2024-May-June/p1.pdf` and all entries come from the
job directory. -/
theorem c9_archive_roundtrip_witness :
    (∃ sname ssname, sampleFileInfo.filepath =
      [tempRoot, "job-0001", sanitize sname, sanitize ssname,
        sampleFileInfo.filename]) ∧
    sampleFileInfo.filepath.drop 2 ∈ sampleRun.zip_entries.map Prod.fst ∧
    (∀ ent ∈ sampleRun.zip_entries, ∃ q ∈ sampleRun.fs,
      dirContains [tempRoot, "job-0001"] q.1 = true ∧ ent = (q.1.drop 2, q.2)) :=
  c9_archive_roundtrip sampleEnv fetchAllOk sampleOrder "caie" ["9700"] ["9700:s1"]
    "job-0001" sampleJob0 [] 3 sampleSeasonMap sampleRun sampleFileInfo "data"
    rfl (List.Perm.refl _) (by with_unfolding_all rfl) (by decide) rfl

/-! ## Claim C10: a failed fetch is not filesystem-atomic -/

/-- C10: when a fetch raises after chunks were already streamed to the
destination, the fetcher returns `(false, message)` and the job records the
per-file failure, yet the partially written file remains on disk under the
job's working directory and the archiver includes it as an entry in the
produced ZIP. -/
theorem c10_partial_file_archived (env : Env) (fetch : FileInfo → FetchOutcome)
    (order : List FileInfo) (qualification : String) (subjects seasons : List String)
    (job_id : String) (job0 : Job) (fs0 : FS) (now : Nat)
    (smap : List (String × List String)) (res : RunResult) (e : FileInfo)
    (chunks msg : String)
    (hs : buildSeasonMap seasons = Except.ok smap)
    (hord : order.Perm (collectAll env qualification job_id subjects smap).1)
    (h : download_bulk_files env fetch order qualification subjects seasons job_id
      job0 fs0 now = Except.ok res)
    (he : e ∈ order) (hmid : fetch e = FetchOutcome.excMidStream chunks msg) :
    (∀ fs' : FS, (download_file_async e.filepath (fetch e) fs').1 =
      (false, some msg)) ∧
    (e.filename, some msg) ∈ res.job.failed_files ∧
    e.filepath ∈ fsPaths res.fs ∧
    e.filepath.drop 2 ∈ res.zip_entries.map Prod.fst := by
  have hmem : e ∈ (collectAll env qualification job_id subjects smap).1 :=
    hord.mem_iff.mp he
  have hshape := collectAll_shape env qualification job_id subjects smap e hmem
  have hn : (collectAll env qualification job_id subjects smap).1 ≠ [] := by
    intro hnil
    rw [hnil] at hmem
    simp at hmem
  unfold download_bulk_files at h
  rw [hs] at h
  dsimp only at h
  split at h
  next hz0 => exact absurd (List.length_eq_zero.mp hz0) hn
  next hz0 =>
    injection h with h2
    subst h2
    refine ⟨?_, ?_, ?_, ?_⟩
    · intro fs'
      rw [hmid]
      rfl
    · simp only [completedJobOf_failed_files, creatingZipJob_failed_files]
      have hf := runLoop_failed_mem
        (collectAll env qualification job_id subjects smap).1.length fetch order
        { job := downloadingJob job0 now
            (collectAll env qualification job_id subjects smap).2
            (collectAll env qualification job_id subjects smap).1.length
          fs := fs0
          failed_count := 0 } e he (by rw [hmid]; rfl)
      rw [hmid] at hf
      exact hf
    · exact runLoop_writes _ fetch order _ e he (by rw [hmid]; rfl)
    · refine drop_mem_zip_entries _ job_id qualification e.filepath ?_ ?_
      · exact runLoop_writes _ fetch order _ e he (by rw [hmid]; rfl)
      · rcases hshape with ⟨sn, ssn, hpath⟩
        rw [hpath]
        exact dirContains_collected job_id _ _ _

/-- Witness for C10: in the concrete run whose single fetch dies mid-stream,
the failure is recorded and the partial file ends up in the archive. -/
theorem c10_partial_file_archived_witness :
    (∀ fs' : FS, (download_file_async sampleFileInfo.filepath
      (fetchAllMidStream sampleFileInfo) fs').1 = (false, some "Connection reset")) ∧
    (sampleFileInfo.filename, some "Connection reset") ∈ midRun.job.failed_files ∧
    sampleFileInfo.filepath ∈ fsPaths midRun.fs ∧
    sampleFileInfo.filepath.drop 2 ∈ midRun.zip_entries.map Prod.fst :=
  c10_partial_file_archived sampleEnv fetchAllMidStream sampleOrder "caie" ["9700"]
    ["9700:s1"] "job-0001" sampleJob0 [] 3 sampleSeasonMap midRun sampleFileInfo
    "par" "Connection reset" rfl (List.Perm.refl _) (by with_unfolding_all rfl)
    (by decide) rfl

end PastPapers
